import Mathlib

/-!
Shallow embedding of the Academic Apex core subsystem:
the Ollama generation client (`ollama_adapter.py`), the curator service
(`curator_service.py`), and the document ingestion pipeline
(`ingestion_pipeline.py`).  Machine-level effects (HTTP, file IO, wall
clock, subprocesses) are abstracted into explicit environment values; each
Python function is translated into a total Lean function over those
environments, with Python exceptions modelled as `Except` values.
-/

namespace AcademicApex

/-! ## Ollama adapter (`ollama_adapter.py`)

`OllamaAdapter.generate` posts a JSON payload and retries up to 3 times.
One backend interaction per attempt is described by `AttemptOutcome`; the
byte-level HTTP exchange is abstracted, but the status handling
(`response.raise_for_status()`), the JSON body shape, and the exception
routing of the three `except` clauses are modelled faithfully. -/

/-- The JSON body of an Ollama `/api/generate` reply, with every field
optional, mirroring `result.get(...)` access in the Python code. -/
structure OllamaBody where
  response : Option String
  prompt_eval_count : Option Nat
  eval_count : Option Nat
  done : Option Bool
deriving Repr, DecidableEq

/-- What one `session.post` call produces, as observed by `generate`:
a connection-level failure (`requests.exceptions.ConnectionError`), some
other request failure such as a timeout (`requests.exceptions.RequestException`),
or an HTTP response with a status code and a body that either parses as
JSON (`some body`) or does not (`none`). -/
inductive AttemptOutcome where
  | connError
  | otherRequestError
  | httpResponse (status : Nat) (body : Option OllamaBody)
deriving Repr, DecidableEq

/-- Which `except` clause of `generate` catches the failure of one attempt:
`conn` for `requests.exceptions.ConnectionError`, `request` for other
`RequestException`s (including `HTTPError` from `raise_for_status`), and
`value` for `json.JSONDecodeError` / the explicit `ValueError` raised on a
body missing the `response` field. -/
inductive FailKind where
  | conn
  | request
  | value
deriving Repr, DecidableEq

/-- The dict returned by a successful `generate` call. -/
structure GenerationResult where
  text : String
  model : String
  prompt_tokens : Nat
  completion_tokens : Nat
  done : Bool
deriving Repr, DecidableEq

/-- The body of the `try:` block for one attempt: `raise_for_status`
raises `HTTPError` exactly for status codes in [400, 600); then the body
must parse as JSON and contain a `response` field, else `ValueError`
(or `JSONDecodeError`) is raised. On success the parsed body and its
`response` text are produced. -/
def classifyAttempt : AttemptOutcome → Except FailKind (OllamaBody × String)
  | .connError => .error .conn
  | .otherRequestError => .error .request
  | .httpResponse status body =>
    if 400 ≤ status ∧ status < 600 then .error .request
    else
      match body with
      | none => .error .value
      | some b =>
        match b.response with
        | none => .error .value
        | some t => .ok (b, t)

/-- `true` exactly when `classifyAttempt` lands in one of the `except`
clauses, i.e. the attempt does not return a result. -/
def attemptFails (o : AttemptOutcome) : Bool :=
  match classifyAttempt o with
  | .error _ => true
  | .ok _ => false

/-- The success dict built by `generate`: token counts come from
`result.get("prompt_eval_count", 0)` / `result.get("eval_count", 0)` and
`done` from `result.get("done", True)`. -/
def mkGenerationResult (modelName : String) (b : OllamaBody) (t : String) :
    GenerationResult :=
  { text := t
    model := modelName
    prompt_tokens := b.prompt_eval_count.getD 0
    completion_tokens := b.eval_count.getD 0
    done := b.done.getD true }

/-- The class of the terminal exception `generate` raises after the last
attempt (messages elided): `ConnectionError` for connection/request
failures, `ValueError` for parse/validation failures. -/
inductive GenError where
  | connectionError
  | valueError
deriving Repr, DecidableEq

/-- Which terminal exception each `except` clause raises at `attempt == 2`. -/
def terminalError : FailKind → GenError
  | .conn => .connectionError
  | .request => .connectionError
  | .value => .valueError

/-- `OllamaAdapter._exponential_backoff`: `min(2 ** attempt, 30)`. -/
def backoffDelay (attempt : Nat) : Nat := min (2 ^ attempt) 30

/-- Observable trace of one `generate` call: how many attempts ran, the
sleeps performed between attempts (in chronological order, in seconds),
and the final outcome.  `.ok none` models the Python function falling off
the end of the `for` loop and implicitly returning `None`. -/
structure GenTrace where
  attempts : Nat
  sleeps : List Nat
  outcome : Except GenError (Option GenerationResult)
deriving Repr

/-- The `for attempt in range(3)` loop of `generate`, evaluated over the
list of remaining attempt indices.  On a failed attempt, if
`attempt == 2` the terminal error is raised; otherwise the loop sleeps
`backoffDelay attempt` seconds and continues. -/
def generateOver (env : Nat → AttemptOutcome) (modelName : String) :
    List Nat → GenTrace
  | [] => { attempts := 0, sleeps := [], outcome := .ok none }
  | attempt :: rest =>
    match classifyAttempt (env attempt) with
    | .ok (b, t) =>
      { attempts := 1
        sleeps := []
        outcome := .ok (some (mkGenerationResult modelName b t)) }
    | .error k =>
      if attempt = 2 then
        { attempts := 1, sleeps := [], outcome := .error (terminalError k) }
      else
        let tr := generateOver env modelName rest
        { attempts := tr.attempts + 1
          sleeps := backoffDelay attempt :: tr.sleeps
          outcome := tr.outcome }

/-- `OllamaAdapter.generate(prompt, max_tokens, temperature, model)`.
The prompt, token limit and temperature only shape the JSON payload sent
to the backend; the backend behaviour per attempt is abstracted by `env`. -/
def generate (env : Nat → AttemptOutcome) (modelName _promptText : String)
    (_maxTokens : Nat) (_temperature : ℚ) : GenTrace :=
  generateOver env modelName [0, 1, 2]

/-! ## Curator service (`curator_service.py`) -/

/-- Python `str.strip()` (restricted to the ASCII whitespace that occurs
in this repository's strings): drop whitespace from both ends. -/
def pyStrip (s : String) : String :=
  ⟨((s.data.dropWhile Char.isWhitespace).reverse.dropWhile
      Char.isWhitespace).reverse⟩

/-- The dict returned by `curate_prompt`.  On the fallback path the
Python code adds `error` (the stringified exception, abbreviated here to
the exception class name) and `fallback: True`. -/
structure CurateResult where
  refined : String
  original_length : Nat
  refined_length : Nat
  curator_model : String
  success : Bool
  error : Option String := none
  fallback : Option Bool := none
deriving Repr, DecidableEq

/-- The curation prompt template: one variant when a non-blank
`instruction` is supplied, another otherwise. -/
def curationPromptOf (promptText instruction : String) : String :=
  if pyStrip instruction ≠ "" then
    "You are a prompt curator. Your task is to refine and improve prompts for better clarity and effectiveness.\n\nINSTRUCTION: "
      ++ instruction ++ "\n\nORIGINAL PROMPT:\n" ++ promptText
      ++ "\n\nREFINED PROMPT:"
  else
    "You are a prompt curator. Your task is to refine and improve prompts for better clarity, specificity, and effectiveness while maintaining the original intent.\n\nORIGINAL PROMPT:\n"
      ++ promptText
      ++ "\n\nPlease provide a refined version that is:\n1. More specific and clear\n2. Better structured\n3. More actionable\n\nREFINED PROMPT:"

/-- Post-processing of the model reply: strip it, and if it contains
`"REFINED PROMPT:"` keep only the part after the last occurrence
(`refined_text.split("REFINED PROMPT:")[-1].strip()`).  Python's
containment test `x in s` holds exactly when `split` yields more than
one part. -/
def extractRefined (raw : String) : String :=
  let refined0 := pyStrip raw
  let parts := refined0.splitOn "REFINED PROMPT:"
  if parts.length > 1 then pyStrip (parts.getLastD refined0) else refined0

/-- Exception class name used for the `error` field of the fallback dict. -/
def genErrorName : GenError → String
  | .connectionError => "ConnectionError"
  | .valueError => "ValueError"

/-- `curate_prompt(prompt, instruction)`: builds the curation prompt,
calls `curator_adapter.generate(..., max_tokens=2048, temperature=0.3)`,
and on success returns the refined text with metadata.  Any exception
(including the `TypeError` from subscripting a `None` result) is caught
and the original prompt is returned unchanged with `success: False`. -/
def curatePrompt (env : Nat → AttemptOutcome) (curatorModel : String)
    (promptText instruction : String) : CurateResult :=
  let cp := curationPromptOf promptText instruction
  let tr := generate env curatorModel cp 2048 (3 / 10)
  match tr.outcome with
  | .ok (some r) =>
    let refined := extractRefined r.text
    { refined := refined
      original_length := promptText.length
      refined_length := refined.length
      curator_model := curatorModel
      success := true }
  | .ok none =>
    { refined := promptText
      original_length := promptText.length
      refined_length := promptText.length
      curator_model := curatorModel
      success := false
      error := some "TypeError"
      fallback := some true }
  | .error e =>
    { refined := promptText
      original_length := promptText.length
      refined_length := promptText.length
      curator_model := curatorModel
      success := false
      error := some (genErrorName e)
      fallback := some true }

/-! ## Ingestion pipeline (`ingestion_pipeline.py`)

Files are byte sequences (`List Nat`, each entry < 256).  Python's text
decoders are embedded at the byte level; text-mode reads additionally
perform universal newline translation. -/

/-- A byte in [0x80, 0xBF], i.e. a UTF-8 continuation byte. -/
def isContinuationByte (b : Nat) : Bool := 0x80 ≤ b && b ≤ 0xBF

/-- Python's (strict) UTF-8 decoder: accepts exactly well-formed UTF-8,
rejecting truncated sequences, stray continuation bytes, overlong
encodings, surrogate code points and code points above U+10FFFF.
Returns the decoded code points. -/
def utf8Decode : List Nat → Option (List Nat)
  | [] => some []
  | b1 :: t1 =>
    if b1 ≤ 0x7F then
      (utf8Decode t1).map (fun cs => b1 :: cs)
    else if 0xC2 ≤ b1 ∧ b1 ≤ 0xDF then
      match t1 with
      | [] => none
      | b2 :: t2 =>
        if isContinuationByte b2 then
          (utf8Decode t2).map (fun cs => ((b1 - 0xC0) * 0x40 + (b2 - 0x80)) :: cs)
        else none
    else if 0xE0 ≤ b1 ∧ b1 ≤ 0xEF then
      match t1 with
      | b2 :: b3 :: t3 =>
        let lo2 := if b1 = 0xE0 then 0xA0 else 0x80
        let hi2 := if b1 = 0xED then 0x9F else 0xBF
        if (lo2 ≤ b2 ∧ b2 ≤ hi2) ∧ isContinuationByte b3 then
          (utf8Decode t3).map
            (fun cs => ((b1 - 0xE0) * 0x1000 + (b2 - 0x80) * 0x40 + (b3 - 0x80)) :: cs)
        else none
      | _ => none
    else if 0xF0 ≤ b1 ∧ b1 ≤ 0xF4 then
      match t1 with
      | b2 :: b3 :: b4 :: t4 =>
        let lo2 := if b1 = 0xF0 then 0x90 else 0x80
        let hi2 := if b1 = 0xF4 then 0x8F else 0xBF
        if (lo2 ≤ b2 ∧ b2 ≤ hi2) ∧ isContinuationByte b3 ∧ isContinuationByte b4 then
          (utf8Decode t4).map
            (fun cs =>
              ((b1 - 0xF0) * 0x40000 + (b2 - 0x80) * 0x1000
                + (b3 - 0x80) * 0x40 + (b4 - 0x80)) :: cs)
        else none
      | _ => none
    else none

/-- Python's `latin-1` decoder: every byte 0x00–0xFF maps to the code
point with the same value, so decoding succeeds for every byte sequence. -/
def latin1Decode (bs : List Nat) : Option (List Nat) :=
  if bs.all (fun b => b < 256) then some bs else none

/-- Python's `cp1252` decoder on one byte: ASCII and 0xA0–0xFF map to
themselves, 0x80–0x9F map through the Windows-1252 table, and the five
unassigned bytes 0x81, 0x8D, 0x8F, 0x90, 0x9D fail to decode. -/
def cp1252Byte (b : Nat) : Option Nat :=
  if b < 0x80 then some b
  else if 0xA0 ≤ b ∧ b < 256 then some b
  else
    match b with
    | 0x80 => some 0x20AC
    | 0x82 => some 0x201A
    | 0x83 => some 0x0192
    | 0x84 => some 0x201E
    | 0x85 => some 0x2026
    | 0x86 => some 0x2020
    | 0x87 => some 0x2021
    | 0x88 => some 0x02C6
    | 0x89 => some 0x2030
    | 0x8A => some 0x0160
    | 0x8B => some 0x2039
    | 0x8C => some 0x0152
    | 0x8E => some 0x017D
    | 0x91 => some 0x2018
    | 0x92 => some 0x2019
    | 0x93 => some 0x201C
    | 0x94 => some 0x201D
    | 0x95 => some 0x2022
    | 0x96 => some 0x2013
    | 0x97 => some 0x2014
    | 0x98 => some 0x02DC
    | 0x99 => some 0x2122
    | 0x9A => some 0x0161
    | 0x9B => some 0x203A
    | 0x9C => some 0x0153
    | 0x9E => some 0x017E
    | _ => none

/-- Python's `cp1252` decoder over a byte sequence. -/
def cp1252Decode (bs : List Nat) : Option (List Nat) :=
  bs.mapM cp1252Byte

/-- Universal newline translation performed by `open(..., "r")` in text
mode: `\r\n` and lone `\r` both become `\n` (code points 13 / 10). -/
def translateNewlines : List Nat → List Nat
  | [] => []
  | 13 :: 10 :: t => 10 :: translateNewlines t
  | 13 :: t => 10 :: translateNewlines t
  | c :: t => c :: translateNewlines t

/-- Builds a Lean string from decoded code points.  The decoders above
only produce scalar values, for which `Char.ofNat` is exact. -/
def natsToString (cs : List Nat) : String := ⟨cs.map Char.ofNat⟩

/-- Reading a file in text mode with a given byte decoder: decode, then
translate newlines.  `none` models `UnicodeDecodeError`. -/
def pyDecodeText (dec : List Nat → Option (List Nat)) (bs : List Nat) :
    Option String :=
  (dec bs).map (fun cs => natsToString (translateNewlines cs))

/-- The result dict of the extraction routines and of `process_document`.
Each dict key is an `Option` field; `none` means the key is absent.
Fixed-constant confidences are modelled as exact rationals. -/
structure ExtractionResult where
  success : Bool
  text : Option String := none
  textLength : Option Nat := none
  confidence : Option ℚ := none
  method : Option String := none
  warning : Option String := none
  error : Option String := none
  pages : Option Nat := none
  processingTime : Option Nat := none
  fileSize : Option Nat := none
  contentType : Option String := none
deriving Repr, DecidableEq

/-- `IngestionPipeline._process_text` on the bytes of the file: try
UTF-8; on `UnicodeDecodeError` try `latin-1` then `cp1252`, returning
the first success with confidence 0.9 and a warning naming the encoding;
if all fail, return a failure dict. -/
def processTextBytes (bs : List Nat) : ExtractionResult :=
  match pyDecodeText utf8Decode bs with
  | some text =>
    { success := true
      text := some text
      textLength := some text.length
      confidence := some 1
      method := some "direct_text" }
  | none =>
    match pyDecodeText latin1Decode bs with
    | some text =>
      { success := true
        text := some text
        textLength := some text.length
        confidence := some (9 / 10)
        method := some "text_latin-1"
        warning := some "Used latin-1 encoding" }
    | none =>
      match pyDecodeText cp1252Decode bs with
      | some text =>
        { success := true
          text := some text
          textLength := some text.length
          confidence := some (9 / 10)
          method := some "text_cp1252"
          warning := some "Used cp1252 encoding" }
      | none =>
        { success := false
          error := some "Unable to decode text file with any supported encoding" }

/-- `_process_text(file_path)`: only `open()` errors (e.g.
`FileNotFoundError`) escape; decoding itself is handled internally. -/
def processText (bytes : Except String (List Nat)) :
    Except String ExtractionResult :=
  bytes.map processTextBytes

/-- Outcome of one Tesseract subprocess invocation: exit status 0 with
captured stdout, a nonzero exit status (`subprocess.CalledProcessError`),
or some other exception raised while rasterising / running the tool. -/
inductive OcrRun where
  | ok (stdout : String)
  | fail
  | raised (msg : String)
deriving Repr, DecidableEq

/-- `IngestionPipeline._ocr_image`: returns `result.stdout.strip()`;
a `CalledProcessError` is caught and yields the empty string; any other
exception propagates to the caller. -/
def ocrImage : OcrRun → Except String String
  | .ok out => .ok (pyStrip out)
  | .fail => .ok ""
  | .raised m => .error m

/-- `IngestionPipeline._process_image`: hard failure without Tesseract;
otherwise OCR the image, reporting confidence 0.8, catching any
exception from `_ocr_image` as a failure dict. -/
def processImage (tesseractAvailable : Bool) (run : OcrRun) : ExtractionResult :=
  if !tesseractAvailable then
    { success := false
      error := some "OCR requires Tesseract (install tesseract-ocr)" }
  else
    match ocrImage run with
    | .ok text =>
      { success := true
        text := some text
        textLength := some text.length
        confidence := some (8 / 10)
        method := some "tesseract_ocr" }
    | .error m =>
      { success := false
        error := some ("OCR processing failed: " ++ m) }

/-- One page of an opened PDF document: the text layer returned by
`page.get_text()`, and what OCRing the rasterised page would produce. -/
structure PdfPage where
  textLayer : String
  ocr : OcrRun
deriving Repr, DecidableEq

/-- The page loop of `_process_pdf_pymupdf`, producing the list of
emitted sections in order, as `(page number, is OCR, text)` triples.
A page with a non-blank text layer is emitted directly; a blank page is
OCRed when Tesseract is available and emitted only if the OCR text is
non-blank; otherwise the page is skipped.  An exception from `_ocr_image`
aborts the whole loop. -/
def pdfSections (tesseractAvailable : Bool) :
    List PdfPage → Nat → Except String (List (Nat × Bool × String))
  | [], _ => .ok []
  | p :: rest, pageIdx =>
    if pyStrip p.textLayer ≠ "" then
      match pdfSections tesseractAvailable rest (pageIdx + 1) with
      | .error e => .error e
      | .ok secs => .ok ((pageIdx + 1, false, p.textLayer) :: secs)
    else if tesseractAvailable then
      match ocrImage p.ocr with
      | .error e => .error e
      | .ok ocrText =>
        if pyStrip ocrText ≠ "" then
          match pdfSections tesseractAvailable rest (pageIdx + 1) with
          | .error e => .error e
          | .ok secs => .ok ((pageIdx + 1, true, ocrText) :: secs)
        else pdfSections tesseractAvailable rest (pageIdx + 1)
    else pdfSections tesseractAvailable rest (pageIdx + 1)

/-- Renders one section as appended to `text_parts`:
`f"--- Page {n} ---\n{text}"`, or with an `(OCR)` tag for OCRed pages. -/
def renderSection : Nat × Bool × String → String
  | (n, false, t) => "--- Page " ++ toString n ++ " ---\n" ++ t
  | (n, true, t) => "--- Page " ++ toString n ++ " (OCR) ---\n" ++ t

/-- Python's `sep.join(parts)`. -/
def joinSep (sep : String) : List String → String
  | [] => ""
  | [s] => s
  | s :: rest => s ++ sep ++ joinSep sep rest

/-- `_process_pdf_pymupdf(file_path)`: open the document (an exception
gives the `PyMuPDF processing failed` dict), run the page loop, join the
sections with blank lines and report confidence 0.9. -/
def processPdfPymupdf (tesseractAvailable : Bool)
    (doc : Except String (List PdfPage)) : ExtractionResult :=
  match doc with
  | .error e =>
    { success := false, error := some ("PyMuPDF processing failed: " ++ e) }
  | .ok pageList =>
    match pdfSections tesseractAvailable pageList 0 with
    | .error e =>
      { success := false, error := some ("PyMuPDF processing failed: " ++ e) }
    | .ok secs =>
      let fullText := joinSep "\n\n" (secs.map renderSection)
      { success := true
        text := some fullText
        textLength := some fullText.length
        confidence := some (9 / 10)
        method := some "pymupdf"
        pages := some pageList.length }

/-- Capability flags probed once at pipeline construction. -/
structure Caps where
  tesseract : Bool
  pymupdf : Bool
deriving Repr, DecidableEq

/-- `IngestionPipeline._process_pdf`: dispatch on PyMuPDF availability;
the fallback is a hard failure. -/
def processPdf (caps : Caps) (doc : Except String (List PdfPage)) :
    ExtractionResult :=
  if caps.pymupdf then processPdfPymupdf caps.tesseract doc
  else
    { success := false
      error := some "PDF processing requires PyMuPDF (pip install PyMuPDF)" }

/-- ASCII lower-casing of one character (Python `str.lower()` restricted
to the ASCII range file extensions use). -/
def lowerChar (c : Char) : Char :=
  if 65 ≤ c.toNat ∧ c.toNat ≤ 90 then Char.ofNat (c.toNat + 32) else c

/-- Python `str.lower()` over a string. -/
def pyLower (s : String) : String := ⟨s.data.map lowerChar⟩

/-- `IngestionPipeline._detect_content_type`: pure map over the lowered
file extension; unknown extensions map to `application/octet-stream`. -/
def detectContentType (suffix : String) : String :=
  let s := pyLower suffix
  if s = ".pdf" then "application/pdf"
  else if s = ".txt" then "text/plain"
  else if s = ".md" then "text/plain"
  else if s = ".jpg" then "image/jpeg"
  else if s = ".jpeg" then "image/jpeg"
  else if s = ".png" then "image/png"
  else if s = ".gif" then "image/gif"
  else "application/octet-stream"

/-- The keys of `self.supported_types`. -/
def supportedTypes : List String :=
  ["application/pdf", "image/jpeg", "image/png", "image/gif", "text/plain"]

/-- The environment one `process_document` / `validate_file` call runs
in: the file's extension, its bytes (or the `open()` error), the
`stat()` size (or its error), the opened PDF pages, the OCR outcome for
an image file, the observed wall-clock time, and the filesystem checks
used by `validate_file`. -/
structure DocEnv where
  suffix : String
  bytes : Except String (List Nat)
  statSize : Except String Nat
  pdfDoc : Except String (List PdfPage)
  imageOcr : OcrRun
  elapsed : Nat
  fileExists : Bool
  isRegularFile : Bool

/-- The `self.supported_types[content_type]` dispatch of
`process_document`.  The final branch is unreachable because the caller
checks membership in `supportedTypes` first. -/
def runProcessor (caps : Caps) (env : DocEnv) (ct : String) :
    Except String ExtractionResult :=
  if ct = "application/pdf" then .ok (processPdf caps env.pdfDoc)
  else if ct = "image/jpeg" ∨ ct = "image/png" ∨ ct = "image/gif" then
    .ok (processImage caps.tesseract env.imageOcr)
  else if ct = "text/plain" then processText env.bytes
  else .error ("Unsupported file type: " ++ ct)

/-- `IngestionPipeline.process_document`: detect the content type,
reject unsupported kinds, run the registered processor, then annotate
the result with timing, file size and content type.  The enclosing
`try/except` turns any exception (from the processor or from `stat()`)
into a failure dict, so the function always returns a result. -/
def processDocument (caps : Caps) (env : DocEnv) : ExtractionResult :=
  let ct := detectContentType env.suffix
  if supportedTypes.contains ct then
    match runProcessor caps env ct with
    | .ok r =>
      match env.statSize with
      | .ok size =>
        { r with
          processingTime := some env.elapsed
          fileSize := some size
          contentType := some ct }
      | .error m =>
        { success := false, error := some m, processingTime := some env.elapsed }
    | .error m =>
      { success := false, error := some m, processingTime := some env.elapsed }
  else
    { success := false
      error := some ("Unsupported file type: " ++ ct)
      processingTime := some env.elapsed }

/-- The dict returned by `IngestionPipeline.validate_file`. -/
structure ValidationResult where
  valid : Bool
  error : Option String := none
  supportedList : Option (List String) := none
  contentType : Option String := none
  size : Option Nat := none
deriving Repr, DecidableEq

/-- The 50 MB size ceiling of `validate_file`. -/
def maxFileSize : Nat := 50 * 1024 * 1024

/-- `size / (1024*1024)` rendered with one decimal digit (Python formats
the float with `:.1f`, which rounds; this embedding truncates — the
digits are not load-bearing for any claim). -/
def mbString (size : Nat) : String :=
  let tenths := size * 10 / (1024 * 1024)
  toString (tenths / 10) ++ "." ++ toString (tenths % 10)

/-- The message `f"File too large: {size/(1024*1024):.1f}MB (max: 50MB)"`. -/
def fileTooLargeMsg (size : Nat) : String :=
  "File too large: " ++ mbString size ++ "MB (max: 50MB)"

/-- `IngestionPipeline.validate_file`: existence, regular-file and
supported-kind checks, then the 50 MB ceiling.  `validate_file` has no
exception handler, so a `stat()` error propagates (`.error`).  Note that
it never invokes any extractor. -/
def validateFile (env : DocEnv) : Except String ValidationResult :=
  if !env.fileExists then
    .ok { valid := false, error := some "File does not exist" }
  else if !env.isRegularFile then
    .ok { valid := false, error := some "Path is not a file" }
  else
    let ct := detectContentType env.suffix
    if !supportedTypes.contains ct then
      .ok { valid := false
            error := some ("Unsupported file type: " ++ ct)
            supportedList := some supportedTypes }
    else
      match env.statSize with
      | .error m => .error m
      | .ok size =>
        if size > maxFileSize then
          .ok { valid := false, error := some (fileTooLargeMsg size) }
        else
          .ok { valid := true, contentType := some ct, size := some size }

/-- The claim C5 under test, exactly as stated: a `GenerationResult` is
returned only when some attempt got an HTTP 2xx status with a
well-formed JSON body containing `response`. -/
def c5Stated : Prop :=
  ∀ (env : Nat → AttemptOutcome) (m p : String) (mt : Nat) (T : ℚ)
    (r : GenerationResult),
    (generate env m p mt T).outcome = .ok (some r) →
    ∃ i, i < 3 ∧ ∃ status b, env i = .httpResponse status (some b) ∧
      200 ≤ status ∧ status ≤ 299 ∧ b.response = some r.text

/-- A 51 MB plain-text file that reads as UTF-8 "hi": oversized for
`validate_file`, but processable. -/
def oversizedEnv : DocEnv :=
  { suffix := ".txt"
    bytes := .ok [104, 105]
    statSize := .ok (51 * 1024 * 1024)
    pdfDoc := .ok []
    imageOcr := .fail
    elapsed := 0
    fileExists := true
    isRegularFile := true }

/-- A two-page PDF: page 1 has a text layer, page 2 has an empty text
layer and OCR of its rasterisation produces only empty output. -/
def c7Pages : List PdfPage := [⟨"A", .ok ""⟩, ⟨"", .ok ""⟩]

/-- The structural invariant claimed for every pipeline result dict:
a failure carries no text, and a success carries text whose stored
length is the Python `len` of that text. -/
def ResultInvariant (r : ExtractionResult) : Prop :=
  (r.success = false → r.text = none) ∧
  (r.success = true → ∃ t, r.text = some t ∧ r.textLength = some t.length)

/-! ## Helper lemmas -/

theorem exists_error_of_attemptFails (o : AttemptOutcome)
    (h : attemptFails o = true) : ∃ k, classifyAttempt o = .error k := by
  unfold attemptFails at h
  cases hc : classifyAttempt o with
  | error k => exact ⟨k, rfl⟩
  | ok x => rw [hc] at h; cases h

theorem exists_ok_of_not_attemptFails (o : AttemptOutcome)
    (h : attemptFails o = false) :
    ∃ b t, classifyAttempt o = .ok (b, t) := by
  unfold attemptFails at h
  cases hc : classifyAttempt o with
  | error k => rw [hc] at h; cases h
  | ok x => obtain ⟨b, t⟩ := x; exact ⟨b, t, rfl⟩

/-- Inversion of a successful attempt: it must have been an HTTP
response whose status passed `raise_for_status` and whose JSON body
contained the `response` field. -/
theorem classifyAttempt_ok_inv (o : AttemptOutcome) (b : OllamaBody)
    (t : String) (h : classifyAttempt o = .ok (b, t)) :
    ∃ status, o = .httpResponse status (some b) ∧
      ¬(400 ≤ status ∧ status < 600) ∧ b.response = some t := by
  cases o with
  | connError => cases h
  | otherRequestError => cases h
  | httpResponse status body =>
    simp only [classifyAttempt] at h
    split at h
    · cases h
    · rename_i hstat
      split at h
      · cases h
      · rename_i bb hbody
        split at h
        · cases h
        · rename_i tt hres
          simp only [Except.ok.injEq, Prod.mk.injEq] at h
          obtain ⟨hb, ht⟩ := h
          subst hb; subst ht
          exact ⟨status, rfl, hstat, hres⟩

/-- If the retry loop returned a result, some attempt in the list was
classified as successful and the result was built from its body. -/
theorem generateOver_ok_mem (env : Nat → AttemptOutcome) (m : String)
    (L : List Nat) (r : GenerationResult)
    (h : (generateOver env m L).outcome = .ok (some r)) :
    ∃ i ∈ L, ∃ b t, classifyAttempt (env i) = .ok (b, t) ∧
      r = mkGenerationResult m b t := by
  induction L with
  | nil => simp [generateOver] at h
  | cons a L ih =>
    unfold generateOver at h
    cases hc : classifyAttempt (env a) with
    | ok bt =>
      obtain ⟨b, t⟩ := bt
      rw [hc] at h
      simp only [Except.ok.injEq, Option.some.injEq] at h
      exact ⟨a, by simp, b, t, hc, h.symm⟩
    | error k =>
      rw [hc] at h
      by_cases ha : a = 2
      · simp only [ha, if_true, reduceIte] at h
        cases h
      · simp only [ha, if_false, reduceIte] at h
        obtain ⟨i, hi, b, t, hcl, hr⟩ := ih h
        exact ⟨i, by simp [hi], b, t, hcl, hr⟩

/-- The retry loop runs at least one attempt on a nonempty schedule. -/
theorem generateOver_attempts_pos (env : Nat → AttemptOutcome) (m : String)
    (a : Nat) (L : List Nat) :
    1 ≤ (generateOver env m (a :: L)).attempts := by
  unfold generateOver
  cases hc : classifyAttempt (env a) with
  | ok bt => obtain ⟨b, t⟩ := bt; simp
  | error k =>
    by_cases ha : a = 2
    · simp [ha]
    · simp [ha]

/-! ## Claim C3 -/

/-- Claim C3: against a backend whose every attempt fails (for example one
that always answers HTTP 500), `generate` makes exactly 3 attempts and
then surfaces a terminal `ConnectionError`-class or `ValueError`-class
error instead of retrying further. -/
theorem c3_generate_exactly_three_attempts (env : Nat → AttemptOutcome)
    (m p : String) (mt : Nat) (T : ℚ)
    (h : ∀ i, i < 3 → attemptFails (env i) = true) :
    (generate env m p mt T).attempts = 3 ∧
      ((generate env m p mt T).outcome = .error .connectionError ∨
        (generate env m p mt T).outcome = .error .valueError) := by
  obtain ⟨k0, hk0⟩ := exists_error_of_attemptFails _ (h 0 (by omega))
  obtain ⟨k1, hk1⟩ := exists_error_of_attemptFails _ (h 1 (by omega))
  obtain ⟨k2, hk2⟩ := exists_error_of_attemptFails _ (h 2 (by omega))
  unfold generate
  refine ⟨by simp [generateOver, hk0, hk1, hk2], ?_⟩
  have ho : (generateOver env m [0, 1, 2]).outcome = .error (terminalError k2) := by
    simp [generateOver, hk0, hk1, hk2]
  rw [ho]
  cases k2 <;> simp [terminalError]

/-- Witness for C3 at a backend that always fails at the connection level. -/
theorem c3_witness :
    (generate (fun _ => .connError) "m" "p" 10 1).attempts = 3 ∧
      ((generate (fun _ => .connError) "m" "p" 10 1).outcome
          = .error .connectionError ∨
        (generate (fun _ => .connError) "m" "p" 10 1).outcome
          = .error .valueError) :=
  c3_generate_exactly_three_attempts (fun _ => .connError) "m" "p" 10 1
    (fun _ _ => rfl)

/-! ## Claim C4 -/

/-- Claim C4: against a backend failing the first two attempts and
succeeding on the third, `generate` succeeds, and the sleeps inserted
before the second and third attempts follow `min(2^attempt, 30)` with
0-indexed attempts — 1 second then 2 seconds, in total at least 3
seconds before the successful attempt. -/
theorem c4_generate_backoff_schedule (env : Nat → AttemptOutcome)
    (m p : String) (mt : Nat) (T : ℚ)
    (h0 : attemptFails (env 0) = true) (h1 : attemptFails (env 1) = true)
    (h2 : attemptFails (env 2) = false) :
    (∃ r, (generate env m p mt T).outcome = .ok (some r)) ∧
      (generate env m p mt T).sleeps = [backoffDelay 0, backoffDelay 1] ∧
      (generate env m p mt T).sleeps = [1, 2] ∧
      3 ≤ ((generate env m p mt T).sleeps).sum := by
  obtain ⟨k0, hk0⟩ := exists_error_of_attemptFails _ h0
  obtain ⟨k1, hk1⟩ := exists_error_of_attemptFails _ h1
  obtain ⟨b, t, hk2⟩ := exists_ok_of_not_attemptFails _ h2
  unfold generate
  have hs : (generateOver env m [0, 1, 2]).sleeps = [backoffDelay 0, backoffDelay 1] := by
    simp [generateOver, hk0, hk1, hk2]
  refine ⟨⟨mkGenerationResult m b t, by simp [generateOver, hk0, hk1, hk2]⟩,
    hs, ?_, ?_⟩
  · rw [hs]; simp [backoffDelay]
  · rw [hs]; simp [backoffDelay]

/-- Witness for C4: HTTP 500 twice, then HTTP 200 with a good body. -/
theorem c4_witness :
    (∃ r, (generate
        (fun i => if i < 2 then .httpResponse 500 none
          else .httpResponse 200 (some ⟨some "ok", none, none, none⟩))
        "m" "p" 10 1).outcome = .ok (some r)) ∧
      (generate
        (fun i => if i < 2 then .httpResponse 500 none
          else .httpResponse 200 (some ⟨some "ok", none, none, none⟩))
        "m" "p" 10 1).sleeps = [backoffDelay 0, backoffDelay 1] ∧
      (generate
        (fun i => if i < 2 then .httpResponse 500 none
          else .httpResponse 200 (some ⟨some "ok", none, none, none⟩))
        "m" "p" 10 1).sleeps = [1, 2] ∧
      3 ≤ ((generate
        (fun i => if i < 2 then .httpResponse 500 none
          else .httpResponse 200 (some ⟨some "ok", none, none, none⟩))
        "m" "p" 10 1).sleeps).sum :=
  c4_generate_backoff_schedule _ "m" "p" 10 1 (by decide) (by decide) (by decide)

/-! ## Claim C8 -/

/-- Claim C8: whenever the underlying generation call fails in any way,
`curate_prompt` returns the original prompt unchanged as the refined
text with `success: False`, and (being a total function of its
environment here) lets no exception escape to the caller. -/
theorem c8_curate_falls_back_to_original (env : Nat → AttemptOutcome)
    (curatorModel promptText instruction : String)
    (h : ∀ r, (generate env curatorModel
        (curationPromptOf promptText instruction) 2048 (3 / 10)).outcome
        ≠ .ok (some r)) :
    (curatePrompt env curatorModel promptText instruction).refined = promptText ∧
      (curatePrompt env curatorModel promptText instruction).success = false := by
  unfold curatePrompt
  cases ho : (generate env curatorModel
      (curationPromptOf promptText instruction) 2048 (3 / 10)).outcome with
  | ok x =>
    cases x with
    | none => simp [ho]
    | some r => exact absurd ho (h r)
  | error e => simp [ho]

/-- Witness for C8 at an unreachable backend. -/
theorem c8_witness :
    (curatePrompt (fun _ => .connError) "mistral-7b" "orig" "inst").refined
        = "orig" ∧
      (curatePrompt (fun _ => .connError) "mistral-7b" "orig" "inst").success
        = false :=
  c8_curate_falls_back_to_original (fun _ => .connError) "mistral-7b" "orig"
    "inst" (fun r hr => by
      rw [show (generate (fun _ => .connError) "mistral-7b"
          (curationPromptOf "orig" "inst") 2048 (3 / 10)).outcome
          = .error .connectionError from rfl] at hr
      cases hr)

/-! ## Claim C5 -/

/-- If an attempt fails and is not the last one, the loop runs at least
one further attempt. -/
theorem generateOver_attempts_cons_of_fails (env : Nat → AttemptOutcome)
    (m : String) (a : Nat) (L : List Nat) (ha : ¬ a = 2)
    (hf : attemptFails (env a) = true) :
    (generateOver env m (a :: L)).attempts
      = (generateOver env m L).attempts + 1 := by
  obtain ⟨k, hk⟩ := exists_error_of_attemptFails _ hf
  unfold generateOver
  rw [hk]
  simp only [ha, if_false, reduceIte]
  cases L <;> rfl

/-- Counterexample to C5 as stated: a backend whose (final) response has
HTTP status 300 — not a 2xx — with a well-formed JSON body containing
`response` still makes `generate` return a result, because
`raise_for_status` only raises for statuses in the 4xx/5xx ranges. -/
theorem c5_counterexample : ¬ c5Stated := by
  intro hcl
  obtain ⟨i, _, status, b, henv, _, h299, _⟩ :=
    hcl (fun _ => .httpResponse 300 (some ⟨some "ok", none, none, none⟩))
      "m" "p" 10 1 ⟨"ok", "m", 0, 0, true⟩ rfl
  simp only [AttemptOutcome.httpResponse.injEq] at henv
  obtain ⟨hst, _⟩ := henv
  omega

/-- Claim C5 (amended): `generate` returns a `GenerationResult` only when
some attempt's response had a status outside the 4xx/5xx error ranges
(the statuses `raise_for_status` accepts — not necessarily 2xx) and a
well-formed JSON body containing `response`; a body missing `response`
is a retried failure (`ValueError` class, loop continues when attempts
remain); missing token-count fields never fail validation and default to
0 in the returned result. -/
theorem c5_amended_response_validation :
    (∀ (env : Nat → AttemptOutcome) (m p : String) (mt : Nat) (T : ℚ)
        (r : GenerationResult),
      (generate env m p mt T).outcome = .ok (some r) →
      ∃ i, i < 3 ∧ ∃ status b, env i = .httpResponse status (some b) ∧
        ¬(400 ≤ status ∧ status < 600) ∧ b.response = some r.text ∧
        r.prompt_tokens = b.prompt_eval_count.getD 0 ∧
        r.completion_tokens = b.eval_count.getD 0) ∧
    (∀ (status : Nat) (b : OllamaBody), ¬(400 ≤ status ∧ status < 600) →
      b.response = none →
      classifyAttempt (.httpResponse status (some b)) = .error .value) ∧
    (∀ (env : Nat → AttemptOutcome) (m p : String) (mt : Nat) (T : ℚ)
        (i : Nat), i + 1 < 3 → (∀ j, j ≤ i → attemptFails (env j) = true) →
      i + 2 ≤ (generate env m p mt T).attempts) ∧
    (∀ (status : Nat) (b : OllamaBody) (t : String),
      ¬(400 ≤ status ∧ status < 600) → b.response = some t →
      classifyAttempt (.httpResponse status (some b)) = .ok (b, t)) := by
  refine ⟨?_, ?_, ?_, ?_⟩
  · intro env m p mt T r h
    obtain ⟨i, hiL, b, t, hcl, hr⟩ := generateOver_ok_mem env m [0, 1, 2] r h
    obtain ⟨status, ho, hstat, hresp⟩ := classifyAttempt_ok_inv _ _ _ hcl
    have hi3 : i < 3 := by
      simp only [List.mem_cons, List.not_mem_nil, or_false] at hiL
      rcases hiL with rfl | rfl | rfl <;> omega
    subst hr
    exact ⟨i, hi3, status, b, ho, hstat, hresp, rfl, rfl⟩
  · intro status b hs hr
    simp [classifyAttempt, hs, hr]
  · intro env m p mt T i hi hfail
    unfold generate
    have hi2 : i = 0 ∨ i = 1 := by omega
    rcases hi2 with rfl | rfl
    · rw [generateOver_attempts_cons_of_fails env m 0 [1, 2] (by omega)
        (hfail 0 (by omega))]
      have := generateOver_attempts_pos env m 1 [2]
      omega
    · rw [generateOver_attempts_cons_of_fails env m 0 [1, 2] (by omega)
        (hfail 0 (by omega)),
        generateOver_attempts_cons_of_fails env m 1 [2] (by omega)
        (hfail 1 (by omega))]
      have := generateOver_attempts_pos env m 2 []
      omega
  · intro status b t hs hr
    simp [classifyAttempt, hs, hr]

/-- Witness for the amended C5: a 200 reply whose body has `response`
and a `prompt_eval_count` but no `eval_count` yields a result whose
completion token count defaulted to 0. -/
theorem c5_witness :
    ∃ i, i < 3 ∧ ∃ status b,
      (fun _ => AttemptOutcome.httpResponse 200
          (some ⟨some "ok", some 5, none, none⟩) : Nat → AttemptOutcome) i
        = .httpResponse status (some b) ∧
      ¬(400 ≤ status ∧ status < 600) ∧
      b.response = some (GenerationResult.text ⟨"ok", "m", 5, 0, true⟩) ∧
      (GenerationResult.prompt_tokens ⟨"ok", "m", 5, 0, true⟩)
        = b.prompt_eval_count.getD 0 ∧
      (GenerationResult.completion_tokens ⟨"ok", "m", 5, 0, true⟩)
        = b.eval_count.getD 0 :=
  c5_amended_response_validation.1
    (fun _ => .httpResponse 200 (some ⟨some "ok", some 5, none, none⟩))
    "m" "p" 10 1 ⟨"ok", "m", 5, 0, true⟩ rfl

/-! ## Claims C6 and C10: text decoding -/

/-- The `latin-1` decode attempt succeeds on every byte sequence. -/
theorem latin1Decode_total (bs : List Nat)
    (hall : bs.all (fun b => b < 256) = true) :
    latin1Decode bs = some bs := by
  simp [latin1Decode, hall]

/-- On a file that is not valid UTF-8, `_process_text` lands in the
`latin-1` iteration of the encoding loop and returns its full success
dict. -/
theorem processTextBytes_latin1 (bs : List Nat)
    (hall : bs.all (fun b => b < 256) = true)
    (hu : utf8Decode bs = none) :
    processTextBytes bs =
      { success := true
        text := some (natsToString (translateNewlines bs))
        textLength := some (natsToString (translateNewlines bs)).length
        confidence := some (9 / 10)
        method := some "text_latin-1"
        warning := some "Used latin-1 encoding" } := by
  have h1 : pyDecodeText utf8Decode bs = none := by
    simp [pyDecodeText, hu]
  have h2 : pyDecodeText latin1Decode bs
      = some (natsToString (translateNewlines bs)) := by
    simp [pyDecodeText, latin1Decode_total bs hall]
  simp [processTextBytes, h1, h2]

/-- Claim C6: a `text/plain` file that decodes as UTF-8 succeeds with
confidence exactly 1.0 and method `direct_text`; one that is not valid
UTF-8 (but, like every byte sequence, decodes under `latin-1`) succeeds
with confidence 0.9, a method naming the encoding, and a warning naming
the encoding used; a file decodable under none of the tried encodings
would be a hard failure. -/
theorem c6_text_confidence_and_method (bs : List Nat) :
    ((utf8Decode bs).isSome = true →
      (processTextBytes bs).success = true ∧
      (processTextBytes bs).confidence = some 1 ∧
      (processTextBytes bs).method = some "direct_text") ∧
    (bs.all (fun b => b < 256) = true → utf8Decode bs = none →
      (processTextBytes bs).success = true ∧
      (processTextBytes bs).confidence = some (9 / 10) ∧
      (processTextBytes bs).method = some "text_latin-1" ∧
      (processTextBytes bs).warning = some "Used latin-1 encoding") ∧
    (utf8Decode bs = none → latin1Decode bs = none → cp1252Decode bs = none →
      (processTextBytes bs).success = false) := by
  refine ⟨?_, ?_, ?_⟩
  · intro hu
    obtain ⟨cps, hcps⟩ := Option.isSome_iff_exists.mp hu
    have h1 : pyDecodeText utf8Decode bs
        = some (natsToString (translateNewlines cps)) := by
      simp [pyDecodeText, hcps]
    simp [processTextBytes, h1]
  · intro hall hu
    rw [processTextBytes_latin1 bs hall hu]
    exact ⟨rfl, rfl, rfl, rfl⟩
  · intro h1 h2 h3
    simp [processTextBytes, pyDecodeText, h1, h2, h3]

/-- Witness for C6 on both substantive branches: the UTF-8 file "hi" and
the non-UTF-8 single byte 0xFF. -/
theorem c6_witness :
    ((processTextBytes [104, 105]).success = true ∧
      (processTextBytes [104, 105]).confidence = some 1 ∧
      (processTextBytes [104, 105]).method = some "direct_text") ∧
    ((processTextBytes [255]).success = true ∧
      (processTextBytes [255]).confidence = some (9 / 10) ∧
      (processTextBytes [255]).method = some "text_latin-1" ∧
      (processTextBytes [255]).warning = some "Used latin-1 encoding") :=
  ⟨(c6_text_confidence_and_method [104, 105]).1 rfl,
    (c6_text_confidence_and_method [255]).2.1 (by decide) rfl⟩

/-- Claim C10: the `latin-1` decode attempt succeeds for every possible
byte sequence, so the `cp1252` attempt and the final
"Unable to decode text file with any supported encoding" branch of
`_process_text` are unreachable: every `text/plain` file that is not
valid UTF-8 yields a successful result with method `text_latin-1`. -/
theorem c10_latin1_unreachable_branches (bs : List Nat)
    (hall : bs.all (fun b => b < 256) = true) :
    latin1Decode bs = some bs ∧
    (utf8Decode bs = none →
      (processTextBytes bs).success = true ∧
      (processTextBytes bs).method = some "text_latin-1") ∧
    (processTextBytes bs).success = true ∧
    (processTextBytes bs).method ≠ some "text_cp1252" ∧
    (processTextBytes bs).error = none := by
  refine ⟨latin1Decode_total bs hall, fun hu => ?_, ?_⟩
  · rw [processTextBytes_latin1 bs hall hu]
    exact ⟨rfl, rfl⟩
  · cases hu : utf8Decode bs with
    | some cps =>
      have h1 : pyDecodeText utf8Decode bs
          = some (natsToString (translateNewlines cps)) := by
        simp [pyDecodeText, hu]
      constructor
      · simp [processTextBytes, h1]
      constructor
      · simp [processTextBytes, h1]
      · simp [processTextBytes, h1]
    | none =>
      rw [processTextBytes_latin1 bs hall hu]
      exact ⟨rfl, by simp, rfl⟩

/-- Witness for C10 at the non-UTF-8 byte sequence 0xFF 0x00. -/
theorem c10_witness :
    latin1Decode [255, 0] = some [255, 0] ∧
    (utf8Decode [255, 0] = none →
      (processTextBytes [255, 0]).success = true ∧
      (processTextBytes [255, 0]).method = some "text_latin-1") ∧
    (processTextBytes [255, 0]).success = true ∧
    (processTextBytes [255, 0]).method ≠ some "text_cp1252" ∧
    (processTextBytes [255, 0]).error = none :=
  c10_latin1_unreachable_branches [255, 0] (by decide)

/-! ## Claim C9: Tesseract failure reported as successful empty extraction -/

/-- Claim C9: for an image file processed while Tesseract is available,
a Tesseract subprocess that exits with nonzero status is swallowed by
`_ocr_image` (which returns the empty string), so `process_document`
reports `success = true` with empty text, `text_length = 0` and
confidence 0.8 — the OCR tool failure surfaces as a successful empty
extraction, not as an error result. -/
theorem c9_ocr_failure_is_empty_success (caps : Caps) (env : DocEnv)
    (size : Nat) (htess : caps.tesseract = true)
    (himg : detectContentType env.suffix = "image/jpeg" ∨
      detectContentType env.suffix = "image/png" ∨
      detectContentType env.suffix = "image/gif")
    (hocr : env.imageOcr = OcrRun.fail) (hstat : env.statSize = .ok size) :
    ocrImage env.imageOcr = .ok "" ∧
    (processDocument caps env).success = true ∧
    (processDocument caps env).text = some "" ∧
    (processDocument caps env).textLength = some 0 ∧
    (processDocument caps env).confidence = some (8 / 10) ∧
    (processDocument caps env).error = none := by
  have himgrec : processImage caps.tesseract env.imageOcr =
      { success := true
        text := some ""
        textLength := some 0
        confidence := some (8 / 10)
        method := some "tesseract_ocr" } := by
    rw [htess, hocr]
    exact rfl
  have hsupp : supportedTypes.contains (detectContentType env.suffix) = true := by
    rcases himg with h | h | h <;> rw [h] <;> exact rfl
  have hrun : runProcessor caps env (detectContentType env.suffix)
      = .ok (processImage caps.tesseract env.imageOcr) := by
    unfold runProcessor
    rcases himg with h | h | h <;> rw [h] <;> exact rfl
  rw [hocr]
  refine ⟨rfl, ?_⟩
  have hmem : detectContentType env.suffix ∈ supportedTypes := by
    simpa using hsupp
  unfold processDocument
  simp [hmem, hrun, hstat, himgrec]

/-- Witness for C9: a PNG whose OCR subprocess exits nonzero. -/
theorem c9_witness :
    ocrImage (DocEnv.imageOcr
      { suffix := ".png", bytes := .ok [], statSize := .ok 10,
        pdfDoc := .ok [], imageOcr := .fail, elapsed := 0,
        fileExists := true, isRegularFile := true }) = .ok "" ∧
    (processDocument ⟨true, true⟩
      { suffix := ".png", bytes := .ok [], statSize := .ok 10,
        pdfDoc := .ok [], imageOcr := .fail, elapsed := 0,
        fileExists := true, isRegularFile := true }).success = true ∧
    (processDocument ⟨true, true⟩
      { suffix := ".png", bytes := .ok [], statSize := .ok 10,
        pdfDoc := .ok [], imageOcr := .fail, elapsed := 0,
        fileExists := true, isRegularFile := true }).text = some "" ∧
    (processDocument ⟨true, true⟩
      { suffix := ".png", bytes := .ok [], statSize := .ok 10,
        pdfDoc := .ok [], imageOcr := .fail, elapsed := 0,
        fileExists := true, isRegularFile := true }).textLength = some 0 ∧
    (processDocument ⟨true, true⟩
      { suffix := ".png", bytes := .ok [], statSize := .ok 10,
        pdfDoc := .ok [], imageOcr := .fail, elapsed := 0,
        fileExists := true, isRegularFile := true }).confidence = some (8 / 10) ∧
    (processDocument ⟨true, true⟩
      { suffix := ".png", bytes := .ok [], statSize := .ok 10,
        pdfDoc := .ok [], imageOcr := .fail, elapsed := 0,
        fileExists := true, isRegularFile := true }).error = none :=
  c9_ocr_failure_is_empty_success ⟨true, true⟩ _ 10 rfl
    (Or.inr (Or.inl (by decide))) rfl rfl

/-! ## Claim C1: `process_document` is total and respects the invariant -/

theorem resultInvariant_processTextBytes (bs : List Nat) :
    ResultInvariant (processTextBytes bs) := by
  unfold ResultInvariant processTextBytes
  split
  · exact ⟨fun h => (nomatch h), fun _ => ⟨_, rfl, rfl⟩⟩
  · split
    · exact ⟨fun h => (nomatch h), fun _ => ⟨_, rfl, rfl⟩⟩
    · split
      · exact ⟨fun h => (nomatch h), fun _ => ⟨_, rfl, rfl⟩⟩
      · exact ⟨fun _ => rfl, fun h => nomatch h⟩

theorem resultInvariant_processImage (avail : Bool) (run : OcrRun) :
    ResultInvariant (processImage avail run) := by
  unfold ResultInvariant processImage
  split
  · exact ⟨fun _ => rfl, fun h => nomatch h⟩
  · split
    · exact ⟨fun h => (nomatch h), fun _ => ⟨_, rfl, rfl⟩⟩
    · exact ⟨fun _ => rfl, fun h => nomatch h⟩

theorem resultInvariant_processPdfPymupdf (avail : Bool)
    (doc : Except String (List PdfPage)) :
    ResultInvariant (processPdfPymupdf avail doc) := by
  unfold ResultInvariant processPdfPymupdf
  split
  · exact ⟨fun _ => rfl, fun h => nomatch h⟩
  · split
    · exact ⟨fun _ => rfl, fun h => nomatch h⟩
    · exact ⟨fun h => (nomatch h), fun _ => ⟨_, rfl, rfl⟩⟩

theorem resultInvariant_processPdf (caps : Caps)
    (doc : Except String (List PdfPage)) :
    ResultInvariant (processPdf caps doc) := by
  unfold processPdf
  split
  · exact resultInvariant_processPdfPymupdf caps.tesseract doc
  · exact ⟨fun _ => rfl, fun h => nomatch h⟩

theorem resultInvariant_runProcessor (caps : Caps) (env : DocEnv)
    (ct : String) (r : ExtractionResult)
    (h : runProcessor caps env ct = .ok r) : ResultInvariant r := by
  unfold runProcessor at h
  split at h
  · injection h with h; subst h; exact resultInvariant_processPdf caps env.pdfDoc
  · split at h
    · injection h with h; subst h
      exact resultInvariant_processImage caps.tesseract env.imageOcr
    · split at h
      · unfold processText at h
        cases hb : env.bytes with
        | error m => rw [hb] at h; cases h
        | ok bs =>
          rw [hb] at h
          injection h with h; subst h
          exact resultInvariant_processTextBytes bs
      · cases h

/-- Claim C1: for every document whose detected content type is
supported, `process_document` never raises across the pipeline boundary
(it is a total function of its environment, always returning a dict with
the `success` flag set), and the result satisfies: `success = false`
implies the text reads as `""`, and `success = true` implies
`text_length` equals the length of the returned text. -/
theorem c1_process_document_invariant (caps : Caps) (env : DocEnv)
    (h : supportedTypes.contains (detectContentType env.suffix) = true) :
    ((processDocument caps env).success = false →
      (processDocument caps env).text.getD "" = "") ∧
    ((processDocument caps env).success = true →
      ∃ t, (processDocument caps env).text = some t ∧
        (processDocument caps env).textLength = some t.length) := by
  unfold processDocument
  simp only [h, if_true]
  cases hr : runProcessor caps env (detectContentType env.suffix) with
  | ok r =>
    have hi := resultInvariant_runProcessor caps env _ r hr
    cases hs : env.statSize with
    | ok size =>
      refine ⟨fun hf => ?_, fun ht => ?_⟩
      · have := hi.1 hf
        simp only [ExtractionResult.text] at this ⊢
        rw [this]
        rfl
      · obtain ⟨t, h1, h2⟩ := hi.2 ht
        exact ⟨t, h1, h2⟩
    | error m => exact ⟨fun _ => rfl, fun ht => nomatch ht⟩
  | error m => exact ⟨fun _ => rfl, fun ht => nomatch ht⟩

/-- Witness for C1 at a concrete UTF-8 text file. -/
theorem c1_witness :
    ((processDocument ⟨true, true⟩
      { suffix := ".txt", bytes := .ok [104, 105], statSize := .ok 2,
        pdfDoc := .ok [], imageOcr := .fail, elapsed := 0,
        fileExists := true, isRegularFile := true }).success = false →
      (processDocument ⟨true, true⟩
        { suffix := ".txt", bytes := .ok [104, 105], statSize := .ok 2,
          pdfDoc := .ok [], imageOcr := .fail, elapsed := 0,
          fileExists := true, isRegularFile := true }).text.getD "" = "") ∧
    ((processDocument ⟨true, true⟩
      { suffix := ".txt", bytes := .ok [104, 105], statSize := .ok 2,
        pdfDoc := .ok [], imageOcr := .fail, elapsed := 0,
        fileExists := true, isRegularFile := true }).success = true →
      ∃ t, (processDocument ⟨true, true⟩
          { suffix := ".txt", bytes := .ok [104, 105], statSize := .ok 2,
            pdfDoc := .ok [], imageOcr := .fail, elapsed := 0,
            fileExists := true, isRegularFile := true }).text = some t ∧
        (processDocument ⟨true, true⟩
          { suffix := ".txt", bytes := .ok [104, 105], statSize := .ok 2,
            pdfDoc := .ok [], imageOcr := .fail, elapsed := 0,
            fileExists := true, isRegularFile := true }).textLength
          = some t.length) :=
  c1_process_document_invariant ⟨true, true⟩ _ (by decide)

/-! ## Claim C2: the 50 MB ceiling -/

/-- Counterexample to C2 as stated: a 51 MB text file is rejected by
`validate_file`, but `process_document` performs no size validation at
all — it dispatches straight to the text extractor, which runs and
succeeds (`method = direct_text`), instead of failing before any
extractor is invoked. -/
theorem c2_counterexample :
    maxFileSize < 51 * 1024 * 1024 ∧
    oversizedEnv.statSize = .ok (51 * 1024 * 1024) ∧
    validateFile oversizedEnv
      = .ok { valid := false
              error := some "File too large: 51.0MB (max: 50MB)" } ∧
    (processDocument ⟨true, true⟩ oversizedEnv).success = true ∧
    (processDocument ⟨true, true⟩ oversizedEnv).method = some "direct_text" ∧
    (processDocument ⟨true, true⟩ oversizedEnv).text = some "hi" := by
  refine ⟨by decide, rfl, ?_, rfl, rfl, rfl⟩
  exact rfl

/-- Claim C2 (amended): a document exceeding 50 MB fails `validate_file`
with a descriptive size error (and `validate_file` never invokes any
extractor), but `process_document` itself performs no size check: it
dispatches to the registered extractor regardless of size, returning the
extractor's result annotated with timing and size, so the extractor IS
invoked on oversized input unless the caller validates first. -/
theorem c2_amended_validate_vs_process (env : DocEnv) (size : Nat)
    (hex : env.fileExists = true) (hreg : env.isRegularFile = true)
    (hsupp : supportedTypes.contains (detectContentType env.suffix) = true)
    (hstat : env.statSize = .ok size) (hbig : maxFileSize < size) :
    validateFile env
      = .ok { valid := false, error := some (fileTooLargeMsg size) } ∧
    ∀ (caps : Caps) (r : ExtractionResult),
      runProcessor caps env (detectContentType env.suffix) = .ok r →
      (processDocument caps env).success = r.success ∧
      (processDocument caps env).method = r.method ∧
      (processDocument caps env).text = r.text := by
  constructor
  · unfold validateFile
    rw [hex, hreg]
    simp only [Bool.not_true, Bool.false_eq_true, if_false, reduceIte, hsupp,
      hstat]
    rw [if_pos hbig]
  · intro caps r hr
    unfold processDocument
    simp only [hsupp, if_true, hr, hstat]
    exact ⟨trivial, trivial, trivial⟩

/-- Witness for the amended C2 at the concrete 51 MB text file. -/
theorem c2_witness :
    (validateFile oversizedEnv
      = .ok { valid := false
              error := some (fileTooLargeMsg (51 * 1024 * 1024)) }) ∧
    ((processDocument ⟨true, true⟩ oversizedEnv).success
        = (processTextBytes [104, 105]).success ∧
      (processDocument ⟨true, true⟩ oversizedEnv).method
        = (processTextBytes [104, 105]).method ∧
      (processDocument ⟨true, true⟩ oversizedEnv).text
        = (processTextBytes [104, 105]).text) :=
  ⟨(c2_amended_validate_vs_process oversizedEnv (51 * 1024 * 1024) rfl rfl
      (by decide) rfl (by decide)).1,
    (c2_amended_validate_vs_process oversizedEnv (51 * 1024 * 1024) rfl rfl
      (by decide) rfl (by decide)).2 ⟨true, true⟩ (processTextBytes [104, 105])
      rfl⟩

/-! ## Claim C7: PDF page markers and ordering -/

theorem dataAppend (a b : String) : (a ++ b).data = a.data ++ b.data := rfl

/-- Every part of a joined list occurs contiguously inside the join. -/
theorem mem_data_infix_joinSep (sep : String) (l : List String) :
    ∀ s ∈ l, s.data <:+: (joinSep sep l).data := by
  induction l with
  | nil => intro s hs; exact absurd hs (List.not_mem_nil s)
  | cons a rest ih =>
    intro s hs
    cases rest with
    | nil =>
      have hsa : s = a := by simpa using hs
      subst hsa
      exact ⟨[], [], by simp [joinSep]⟩
    | cons b t =>
      rcases List.mem_cons.mp hs with rfl | hs2
      · refine ⟨[], (sep ++ joinSep sep (b :: t)).data, ?_⟩
        rw [show joinSep sep (s :: b :: t) = s ++ sep ++ joinSep sep (b :: t)
          from rfl]
        simp [dataAppend]
      · obtain ⟨u, v, huv⟩ := ih s hs2
        refine ⟨(a ++ sep).data ++ u, v, ?_⟩
        calc ((a ++ sep).data ++ u) ++ s.data ++ v
            = (a ++ sep).data ++ (u ++ s.data ++ v) := by
              simp [List.append_assoc]
          _ = (a ++ sep).data ++ (joinSep sep (b :: t)).data := by rw [huv]
          _ = ((a ++ sep) ++ joinSep sep (b :: t)).data := (dataAppend _ _).symm
          _ = (joinSep sep (a :: b :: t)).data := rfl

/-- The page loop emits sections with strictly increasing page numbers,
all above the running index. -/
theorem pdfSections_mono (avail : Bool) (pages : List PdfPage) :
    ∀ (n : Nat) (secs : List (Nat × Bool × String)),
      pdfSections avail pages n = .ok secs →
      (∀ x ∈ secs, n < x.1) ∧ List.Chain' (fun a b => a.1 < b.1) secs := by
  induction pages with
  | nil =>
    intro n secs h
    injection h with h
    subst h
    exact ⟨by simp, by simp⟩
  | cons p rest ih =>
    intro n secs h
    unfold pdfSections at h
    split at h
    · split at h
      · cases h
      · rename_i secs0 hrec
        injection h with h
        subst h
        obtain ⟨hb, hc⟩ := ih (n + 1) secs0 hrec
        refine ⟨?_, ?_⟩
        · intro x hx
          rcases List.mem_cons.mp hx with rfl | hx2
          · exact Nat.lt_succ_self n
          · have := hb x hx2; omega
        · rw [List.chain'_cons']
          exact ⟨fun y hy => hb y (List.mem_of_mem_head? hy), hc⟩
    · split at h
      · split at h
        · cases h
        · rename_i ocrText hocr
          split at h
          · split at h
            · cases h
            · rename_i secs0 hrec
              injection h with h
              subst h
              obtain ⟨hb, hc⟩ := ih (n + 1) secs0 hrec
              refine ⟨?_, ?_⟩
              · intro x hx
                rcases List.mem_cons.mp hx with rfl | hx2
                · exact Nat.lt_succ_self n
                · have := hb x hx2; omega
              · rw [List.chain'_cons']
                exact ⟨fun y hy => hb y (List.mem_of_mem_head? hy), hc⟩
          · obtain ⟨hb, hc⟩ := ih (n + 1) secs h
            exact ⟨fun x hx => by have := hb x hx; omega, hc⟩
      · obtain ⟨hb, hc⟩ := ih (n + 1) secs h
        exact ⟨fun x hx => by have := hb x hx; omega, hc⟩

/-- If page `i` (0-indexed) has a blank text layer and its OCR produces
non-blank text, the loop (with Tesseract available) emits an OCR section
for that page. -/
theorem pdfSections_ocr_page_mem (pages : List PdfPage) :
    ∀ (n : Nat) (secs : List (Nat × Bool × String)) (i : Nat) (p : PdfPage),
      pdfSections true pages n = .ok secs →
      pages.get? i = some p → pyStrip p.textLayer = "" →
      ∀ s, ocrImage p.ocr = .ok s → pyStrip s ≠ "" →
      (n + i + 1, true, s) ∈ secs := by
  induction pages with
  | nil => intro n secs i p h hget; simp at hget
  | cons q rest ih =>
    intro n secs i p h hget hempty s hocr hne
    cases i with
    | zero =>
      simp only [List.get?] at hget
      injection hget with hget
      subst hget
      unfold pdfSections at h
      rw [if_neg (by simp [hempty])] at h
      split at h
      · split at h
        · rename_i e heq
          rw [hocr] at heq
          cases heq
        · rename_i ocrText heq
          rw [hocr] at heq
          injection heq with heq
          subst heq
          split at h
          · split at h
            · cases h
            · rename_i secs0 hrec
              injection h with h
              subst h
              exact List.mem_cons_self _ _
          · rename_i hcontra
            exact absurd (fun hss => hcontra hss) (fun hnn => hnn hne)
      · rename_i hf
        exact absurd rfl hf
    | succ j =>
      simp only [List.get?] at hget
      unfold pdfSections at h
      split at h
      · split at h
        · cases h
        · rename_i secs0 hrec
          injection h with h
          subst h
          have hmem := ih (n + 1) secs0 j p hrec hget hempty s hocr hne
          have hidx : n + (j + 1) + 1 = (n + 1) + j + 1 := by omega
          rw [hidx]
          exact List.mem_cons_of_mem _ hmem
      · split at h
        · split at h
          · cases h
          · rename_i ocrText heq
            split at h
            · split at h
              · cases h
              · rename_i secs0 hrec
                injection h with h
                subst h
                have hmem := ih (n + 1) secs0 j p hrec hget hempty s hocr hne
                have hidx : n + (j + 1) + 1 = (n + 1) + j + 1 := by omega
                rw [hidx]
                exact List.mem_cons_of_mem _ hmem
            · have hmem := ih (n + 1) secs j p h hget hempty s hocr hne
              have hidx : n + (j + 1) + 1 = (n + 1) + j + 1 := by omega
              rw [hidx]
              exact hmem
        · rename_i hf
          exact absurd rfl hf

/-- Claim C7 (amended): the sections of `_process_pdf_pymupdf` appear in
strictly ascending page order; and for a PDF whose page 2 has a blank
text layer, when OCR is available AND the OCR of that page yields
non-blank text, the extracted text contains the marker
`--- Page 2 (OCR) ---`.  (The as-stated claim omits the non-blank-OCR
condition and is refuted by `c7_counterexample`.) -/
theorem c7_amended_page_order_and_marker (pages : List PdfPage)
    (secs : List (Nat × Bool × String))
    (hsec : pdfSections true pages 0 = .ok secs) :
    List.Chain' (fun a b => a.1 < b.1) secs ∧
    ∀ p s, pages.get? 1 = some p → pyStrip p.textLayer = "" →
      ocrImage p.ocr = .ok s → pyStrip s ≠ "" →
      ∃ t, (processPdfPymupdf true (.ok pages)).text = some t ∧
        ("--- Page 2 (OCR) ---").data <:+: t.data := by
  refine ⟨(pdfSections_mono true pages 0 secs hsec).2, ?_⟩
  intro p s hget hempty hocr hne
  have hmem : ((2 : Nat), true, s) ∈ secs :=
    pdfSections_ocr_page_mem pages 0 secs 1 p hsec hget hempty s hocr hne
  have hrendmem : renderSection (2, true, s) ∈ secs.map renderSection :=
    List.mem_map_of_mem renderSection hmem
  obtain ⟨u, v, huv⟩ :=
    mem_data_infix_joinSep "\n\n" (secs.map renderSection) _ hrendmem
  refine ⟨joinSep "\n\n" (secs.map renderSection), ?_, ?_⟩
  · simp [processPdfPymupdf, hsec]
  · have hd : (renderSection (2, true, s)).data
        = ("--- Page 2 (OCR) ---").data ++ ([(Char.ofNat 10)] ++ s.data) := by
      rw [show renderSection (2, true, s)
          = "--- Page 2 (OCR) ---\n" ++ s from rfl]
      rw [dataAppend]
      rfl
    rw [hd] at huv
    refine ⟨u, [(Char.ofNat 10)] ++ s.data ++ v, ?_⟩
    rw [← huv]
    simp [List.append_assoc]

/-- Counterexample to C7 as stated: a two-page PDF whose page 2 has an
empty text layer, processed with OCR available, where the OCR of page 2
produces only empty output — the page is silently skipped and the
extracted text does NOT contain `--- Page 2 (OCR) ---`. -/
theorem c7_counterexample :
    c7Pages.get? 1 = some ⟨"", .ok ""⟩ ∧
    pyStrip (PdfPage.textLayer ⟨"", .ok ""⟩) = "" ∧
    (processPdfPymupdf true (.ok c7Pages)).success = true ∧
    (processPdfPymupdf true (.ok c7Pages)).text = some "--- Page 1 ---\nA" ∧
    ¬ (("--- Page 2 (OCR) ---").data <:+: ("--- Page 1 ---\nA").data) :=
  ⟨rfl, rfl, rfl, rfl, by decide⟩

/-- Witness for the amended C7: page 2 blank but with non-blank OCR text
produces the marker, in order after page 1. -/
theorem c7_witness :
    List.Chain' (fun a b => a.1 < b.1)
      [((1 : Nat), false, "A"), ((2 : Nat), true, "B")] ∧
    ∃ t, (processPdfPymupdf true
        (.ok [⟨"A", .ok ""⟩, ⟨"", .ok "B"⟩])).text = some t ∧
      ("--- Page 2 (OCR) ---").data <:+: t.data :=
  ⟨(c7_amended_page_order_and_marker [⟨"A", .ok ""⟩, ⟨"", .ok "B"⟩]
      [(1, false, "A"), (2, true, "B")] rfl).1,
    (c7_amended_page_order_and_marker [⟨"A", .ok ""⟩, ⟨"", .ok "B"⟩]
      [(1, false, "A"), (2, true, "B")] rfl).2 ⟨"", .ok "B"⟩ "B" rfl rfl rfl
      (by decide)⟩

end AcademicApex
